import Mathlib

/-!
Verification of the MarketMind market-intelligence query engine.

Shallow embedding of the core pipeline functions of the repository:
`core/processing.py` (chunking), `core/pipeline/ranking.py` (scoring),
`core/entities.py` (coalescing entity upsert), `core/db/financials.py`
(deep-merge upsert of financial periods), `connectors/providers/base_provider.py`
and `core/source_discovery.py` (rate limiting and provider dispatch),
`core/pipeline/enrichment.py` (scenario construction),
`core/pipeline/intelligence.py` (decision card) and
`core/pipeline/stream.py` (stage-event stream).

Python strings are modelled as `List Char`, Python `float` as `ℚ` with
exact arithmetic, Python `round(x, n)` as rounding `x * 10^n` to the
nearest integer (the tie-breaking rule on exact half-way values is
immaterial to every statement proved here), and Python dictionaries as
association lists.  External calls (database, HTTP, LLM) are oracle
parameters of the embedded functions.
-/

namespace MarketMind

/-- Python `str.lower()` on a `List Char` model of a string. -/
def pyLower (s : List Char) : List Char := s.map Char.toLower

/-- Python `round(x, n)`: round to `n` decimal digits. -/
def roundTo (n : ℕ) (q : ℚ) : ℚ := (round (q * (10 : ℚ) ^ n) : ℤ) / (10 : ℚ) ^ n

lemma roundTo_abs_sub_le (n : ℕ) (q : ℚ) :
    |roundTo n q - q| ≤ 1 / (2 * (10 : ℚ) ^ n) := by
  have hpow : (0 : ℚ) < (10 : ℚ) ^ n := by positivity
  have h := abs_sub_round (q * (10 : ℚ) ^ n)
  rw [abs_sub_comm] at h
  have hq : roundTo n q - q = ((round (q * (10:ℚ)^n) : ℚ) - q * (10:ℚ)^n) / (10:ℚ)^n := by
    field_simp [roundTo]
    ring
  rw [hq, abs_div, abs_of_pos hpow, div_le_div_iff hpow (by positivity)]
  nlinarith [abs_nonneg ((round (q * (10:ℚ)^n) : ℚ) - q * (10:ℚ)^n)]

lemma round_mono_rat : Monotone (round : ℚ → ℤ) := by
  intro a b hab
  rw [round_eq, round_eq]
  exact Int.floor_le_floor (by linarith)

lemma roundTo_mono (n : ℕ) : Monotone (roundTo n) := by
  intro a b hab
  have hpow : (0 : ℚ) < (10 : ℚ) ^ n := by positivity
  rw [roundTo, roundTo, div_le_div_iff_of_pos_right hpow]
  exact_mod_cast round_mono_rat (by nlinarith)

lemma roundTo_intCast (n : ℕ) (z : ℤ) (q : ℚ) (hq : q = (z : ℚ) / (10:ℚ)^n) :
    roundTo n q = q := by
  have hpow : ((10 : ℚ) ^ n) ≠ 0 := by positivity
  subst hq
  rw [roundTo, div_mul_cancel₀ _ hpow, round_intCast]

lemma roundTo_nonneg (n : ℕ) (q : ℚ) (hq : 0 ≤ q) : 0 ≤ roundTo n q := by
  have h := roundTo_mono n hq
  rwa [roundTo_intCast n 0 0 (by simp)] at h

lemma roundTo_le_one (n : ℕ) (q : ℚ) (hq : q ≤ 1) : roundTo n q ≤ 1 := by
  have h := roundTo_mono n hq
  rwa [roundTo_intCast n (10^n) 1 (by push_cast; field_simp)] at h

/-! ## `core/processing.py` — `chunk_text` -/

/-- Python `str.strip()`: drop leading and trailing whitespace. -/
def pyStrip (s : List Char) : List Char :=
  ((s.dropWhile Char.isWhitespace).reverse.dropWhile Char.isWhitespace).reverse

lemma pyStrip_length_le (s : List Char) : (pyStrip s).length ≤ s.length := by
  unfold pyStrip
  calc ((s.dropWhile Char.isWhitespace).reverse.dropWhile Char.isWhitespace).reverse.length
      = ((s.dropWhile Char.isWhitespace).reverse.dropWhile Char.isWhitespace).length := by
        rw [List.length_reverse]
    _ ≤ (s.dropWhile Char.isWhitespace).reverse.length :=
        (List.dropWhile_sublist _).length_le
    _ = (s.dropWhile Char.isWhitespace).length := by rw [List.length_reverse]
    _ ≤ s.length := (List.dropWhile_sublist _).length_le

/-- The `while start < length` loop of `chunk_text`, after the clamps
`safe_chunk_size = max(chunk_size, 100)` and
`safe_overlap = min(max(overlap, 0), safe_chunk_size - 1)` produced
`scs` and `so` with `so < scs`.  The loop slices `text[start:end]` with
`end = min(start + scs, length)`, strips the slice, keeps it when
non-empty, stops when `end == length`, and otherwise continues from
`end - so`.  Lean accepts the recursion because `so < scs` makes the
next window start strictly larger — this is the termination argument. -/
def chunkLoop (text : List Char) (scs so : ℕ) (hso : so < scs) (start : ℕ) :
    List (List Char) :=
  if h : start < text.length then
    let e := min (start + scs) text.length
    let chunk := pyStrip ((text.drop start).take (e - start))
    let rest := if he : e = text.length then [] else chunkLoop text scs so hso (e - so)
    if chunk = [] then rest else chunk :: rest
  else []
termination_by text.length - start
decreasing_by
  simp only [e] at he ⊢
  omega

/-- Embedding of `chunk_text(text, chunk_size, overlap)` from `core/processing.py`.
`chunk_size` and `overlap` are Python ints, hence `ℤ`. -/
def chunk_text (text : List Char) (chunkSize : ℤ := 500) (overlap : ℤ := 100) :
    List (List Char) :=
  if text = [] then []
  else
    chunkLoop text (max chunkSize 100).toNat
      (min (max overlap 0).toNat ((max chunkSize 100).toNat - 1))
      (by omega) 0

lemma chunkLoop_sound (text : List Char) (scs so : ℕ) (hso : so < scs) :
    ∀ start, ∀ c ∈ chunkLoop text scs so hso start, c ≠ [] ∧ c.length ≤ scs := by
  intro start
  induction start using chunkLoop.induct text scs so hso with
  | case1 x hx e chunk hchunk ih =>
    intro c hc
    rw [chunkLoop] at hc
    simp only [dif_pos hx] at hc
    split at hc
    · split at hc
      · simp at hc
      next he => exact ih he c hc
    · exact absurd hchunk (by assumption)
  | case2 x hx e chunk hchunk ih =>
    intro c hc
    rw [chunkLoop] at hc
    simp only [dif_pos hx] at hc
    split at hc
    · exact absurd (by assumption) hchunk
    · rcases List.mem_cons.mp hc with rfl | hc
      · refine ⟨hchunk, ?_⟩
        calc (pyStrip ((text.drop x).take (min (x + scs) text.length - x))).length
            ≤ ((text.drop x).take (min (x + scs) text.length - x)).length :=
              pyStrip_length_le _
          _ ≤ min (x + scs) text.length - x := by
              rw [List.length_take]; omega
          _ ≤ scs := by omega
      · split at hc
        · simp at hc
        next he => exact ih he c hc
  | case3 x hx =>
    intro c hc
    rw [chunkLoop] at hc
    simp [dif_neg hx] at hc

/-- C10: `chunk_text` is total for every text and every `chunk_size` /
`overlap` (including `overlap ≥ chunk_size` and non-positive values) —
witnessed by the terminating definition `chunkLoop`, whose window start
strictly increases because the effective chunk size is clamped to at
least 100 and the effective overlap to `[0, effective_chunk_size − 1]` —
and every returned chunk is non-empty and at most
`max(chunk_size, 100)` characters long. -/
theorem chunk_text_chunks_nonempty_and_bounded (text : List Char)
    (chunkSize overlap : ℤ) :
    ∀ c ∈ chunk_text text chunkSize overlap,
      c ≠ [] ∧ (c.length : ℤ) ≤ max chunkSize 100 := by
  intro c hc
  rw [chunk_text] at hc
  split at hc
  · simp at hc
  · obtain ⟨hne, hlen⟩ := chunkLoop_sound text _ _ _ 0 c hc
    refine ⟨hne, ?_⟩
    have h100 : (100 : ℤ) ≤ max chunkSize 100 := le_max_right _ _
    omega

/-- Witness for C10 at the concrete input `"hi"`, chunk size 500, overlap 100. -/
theorem chunk_text_chunks_nonempty_and_bounded_w :
    ['h','i'] ≠ ([] : List Char) ∧ (([('h':Char),'i'].length : ℤ) ≤ max 500 100) :=
  chunk_text_chunks_nonempty_and_bounded ['h','i'] 500 100 ['h','i'] (by
    simp [chunk_text, chunkLoop, pyStrip, List.dropWhile])

/-! ## `core/pipeline/ranking.py` — evidence items and scoring helpers

An evidence item is a Python dict; the fields read by the ranking code are
modelled as `Option`-valued record fields (`none` = key absent or `None`).
`critic_status` is read with default `"approved"`, so it is modelled as a
plain string with that default. -/

structure Item where
  source_name : Option (List Char) := none
  evidence_ref : Option (List Char) := none
  insight : Option (List Char) := none
  recommendation : Option (List Char) := none
  confidence : Option ℚ := none
  text_rank : Option ℚ := none
  similarity_score : Option ℚ := none
  created_at : Option ℚ := none
  critic_status : List Char := "approved".toList
  threat_level : Option (List Char) := none
  deriving DecidableEq

/-- The parts of `query_context` read by `_rank_items`:  `tokens`, `ticker`,
`entity` and `(entity_record or {}).get("sector")`. -/
structure QueryContext where
  tokens : List (List Char) := []
  ticker : Option (List Char) := none
  entity : Option (List Char) := none
  entitySector : Option (List Char) := none

/-- Embedding of `_recency_score(created_at)`: `created_at` is modelled as an optional
POSIX timestamp in seconds, `now` is the current time. -/
def recencyScore (now : ℚ) (createdAt : Option ℚ) : ℚ :=
  match createdAt with
  | none => 0
  | some t => 1 / (1 + (max ((now - t) / 3600) 0) / 24)

lemma recencyScore_nonneg (now : ℚ) (c : Option ℚ) : 0 ≤ recencyScore now c := by
  rcases c with - | t
  · simp [recencyScore]
  · simp only [recencyScore]
    have h : (0:ℚ) ≤ max ((now - t) / 3600) 0 := le_max_right _ _
    positivity

lemma recencyScore_le_one (now : ℚ) (c : Option ℚ) : recencyScore now c ≤ 1 := by
  rcases c with - | t
  · simp [recencyScore]
  · simp only [recencyScore]
    have h : (0:ℚ) ≤ max ((now - t) / 3600) 0 := le_max_right _ _
    rw [div_le_one (by positivity)]
    linarith

/-- Embedding of `_source_quality_factor(source_name, evidence_ref)`. -/
def sourceQualityFactor (sourceName evidenceRef : Option (List Char)) : ℚ :=
  let source := pyLower (sourceName.getD [])
  let ref := pyLower (evidenceRef.getD [])
  if "sec".toList <:+: source ∨ "edgar".toList <:+: source ∨ "sec.gov".toList <:+: ref then 1
  else if "yahoo finance".toList <:+: source ∨ "finance.yahoo.com".toList <:+: ref then 98/100
  else if "fmp".toList <:+: source ∨ "alpha vantage".toList <:+: source then 95/100
  else if "google news".toList <:+: source ∨ "news.google.com".toList <:+: ref then 9/10
  else if "rss".toList <:+: source then 85/100
  else if "reddit".toList <:+: source then 7/10
  else if "duckduckgo".toList <:+: source then 75/100
  else 8/10

lemma sourceQualityFactor_bounds (s r : Option (List Char)) :
    7/10 ≤ sourceQualityFactor s r ∧ sourceQualityFactor s r ≤ 1 := by
  unfold sourceQualityFactor
  dsimp only
  split_ifs <;> norm_num

/-- Embedding of `_token_relevance(query_tokens, insight, recommendation)`. -/
def tokenRelevance (tokens : List (List Char)) (insight recommendation : Option (List Char)) : ℚ :=
  let text := pyLower ((insight.getD []) ++ [' '] ++ (recommendation.getD []))
  if tokens = [] then 0
  else min ((tokens.countP (fun t => decide (t <:+: text)) : ℚ) / (max tokens.length 1 : ℚ)) 1

lemma tokenRelevance_bounds (tk : List (List Char)) (i r : Option (List Char)) :
    0 ≤ tokenRelevance tk i r ∧ tokenRelevance tk i r ≤ 1 := by
  unfold tokenRelevance
  dsimp only
  split_ifs with h
  · norm_num
  · constructor
    · apply le_min _ (by norm_num)
      have h1 : (0:ℚ) < (max tk.length 1 : ℕ) := by
        have := le_max_right tk.length 1
        exact_mod_cast Nat.lt_of_lt_of_le Nat.zero_lt_one this
      positivity
    · exact min_le_right _ _

/-- The stop-word set `_ENTITY_STOP_WORDS` of `_entity_relevance`. -/
def entityStopWords : List (List Char) :=
  ["limited", "inc", "corp", "company", "group", "holdings",
   "technologies", "international", "services", "the", "and",
   "new", "one", "first", "global", "systems", "solutions",
   "enterprises", "partners", "capital", "financial", "industries",
   "associates", "consulting", "management", "ltd", "plc", "llc",
   "co", "sa", "ag", "nv", "se", "gmbh"].map String.toList

/-- Python `str.split()` (split on whitespace runs, dropping empty parts). -/
def pySplitWS (s : List Char) : List (List Char) :=
  (s.splitOnP (fun c => c.isWhitespace)).filter (fun p => !p.isEmpty)

/-- Word characters of the `\b` regex anchor (ASCII `\w`). -/
def isWordChar (c : Char) : Bool := c.isAlphanum || c = '_'

def wordAt (hay : List Char) (i : ℕ) : Bool := ((hay[i]?).map isWordChar).getD false

/-- Whether `\b` holds between positions `i-1` and `i` (out-of-range = non-word). -/
def boundaryAt (hay : List Char) (i : ℕ) : Bool :=
  (if i = 0 then false else wordAt hay (i-1)) != wordAt hay i

/-- Whether the word-boundary-anchored pattern `\b<needle>\b` matches at
offset `i` of `hay` (the needle is `re.escape`d in the source, hence a
literal). -/
def wbMatchAt (needle hay : List Char) (i : ℕ) : Bool :=
  decide ((hay.drop i).take needle.length = needle) &&
    boundaryAt hay i && boundaryAt hay (i + needle.length)

/-- Search (`re.search`) of `\b<needle>\b` over `hay`. -/
def wbSearch (needle hay : List Char) : Bool :=
  (List.range (hay.length + 1)).any (fun i => wbMatchAt needle hay i)

/-- The significant name parts of `_entity_relevance`: strip `,` and `.`,
split on whitespace, keep parts of length > 2 outside the stop-word set. -/
def nameParts (nameLower : List Char) : List (List Char) :=
  (pySplitWS (nameLower.filter (fun c => !(c == ',' || c == '.')))).filter
    (fun p => 2 < p.length && !(decide (p ∈ entityStopWords)))

/-- Ticker block of `_entity_relevance` (`score` after the first `if`). -/
def erScoreTicker (tickLower title text : List Char) : ℚ :=
  if tickLower ≠ [] then
    (if wbSearch tickLower title then max 0 1
     else if wbSearch tickLower text then max 0 (4/5) else 0)
  else 0

/-- Name-in-title block of `_entity_relevance`. -/
def erScoreName (s₁ : ℚ) (nameLower title : List Char) (parts : List (List Char)) : ℚ :=
  if nameLower ≠ [] ∧ nameLower <:+: title then max s₁ (95/100)
  else if parts ≠ [] then
    (let hits := parts.countP (fun p => decide (p <:+: title))
     if 0 < hits then max s₁ ((85/100) * ((hits : ℚ) / (parts.length : ℚ)))
     else s₁)
  else s₁

/-- Body-fragments block of `_entity_relevance`. -/
def erScoreBody (s₂ : ℚ) (parts : List (List Char)) (text : List Char) : ℚ :=
  if s₂ < 1/2 ∧ parts ≠ [] then
    (let bodyHits := parts.countP (fun p => decide (p <:+: text))
     if 0 < bodyHits then max s₂ ((2/5) * ((bodyHits : ℚ) / (parts.length : ℚ)))
     else s₂)
  else s₂

/-- Embedding of `_entity_relevance(ticker, entity_name, item)`.  The three sequential
`score = max(score, …)` blocks of the source are `erScoreTicker`,
`erScoreName` and `erScoreBody`. -/
def entityRelevance (ticker entityName : Option (List Char)) (it : Item) : ℚ :=
  if ticker.getD [] = [] ∧ entityName.getD [] = [] then 1/2
  else
    let title := pyLower (it.source_name.getD [])
    let insight := pyLower (it.insight.getD [])
    let ref := pyLower (it.evidence_ref.getD [])
    let text := title ++ [' '] ++ insight ++ [' '] ++ ref
    let tickLower := pyLower (ticker.getD [])
    let nameLower := pyLower (entityName.getD [])
    let parts := nameParts nameLower
    roundTo 4 (erScoreBody (erScoreName (erScoreTicker tickLower title text)
      nameLower title parts) parts text)

lemma frac_hits_le_one (hits len : ℕ) (h : hits ≤ len) (hlen : 0 < len) :
    ((hits : ℚ) / (len : ℚ)) ≤ 1 := by
  rw [div_le_one (by exact_mod_cast hlen)]
  exact_mod_cast h

lemma countP_frac_bounds (parts : List (List Char)) (p : List Char → Bool)
    (hpos : 0 < parts.countP p) :
    0 ≤ ((parts.countP p : ℚ) / (parts.length : ℚ)) ∧
      ((parts.countP p : ℚ) / (parts.length : ℚ)) ≤ 1 := by
  have hle : parts.countP p ≤ parts.length := List.countP_le_length _
  have hlen : 0 < parts.length := lt_of_lt_of_le hpos hle
  exact ⟨by positivity, frac_hits_le_one _ _ hle hlen⟩

lemma erScoreTicker_bounds (tk ti te : List Char) :
    0 ≤ erScoreTicker tk ti te ∧ erScoreTicker tk ti te ≤ 1 := by
  unfold erScoreTicker
  split_ifs <;> norm_num

lemma erScoreName_bounds (s₁ : ℚ) (nl ti : List Char) (parts : List (List Char))
    (h : 0 ≤ s₁ ∧ s₁ ≤ 1) :
    0 ≤ erScoreName s₁ nl ti parts ∧ erScoreName s₁ nl ti parts ≤ 1 := by
  unfold erScoreName
  dsimp only
  obtain ⟨h0, h1⟩ := h
  split_ifs with hc1 hc2 hc3
  · constructor
    · exact le_max_of_le_right (by norm_num)
    · exact max_le h1 (by norm_num)
  · obtain ⟨hf0, hf1⟩ := countP_frac_bounds parts _ hc3
    constructor
    · exact le_max_of_le_left h0
    · exact max_le h1 (by nlinarith)
  · exact ⟨h0, h1⟩
  · exact ⟨h0, h1⟩

lemma erScoreBody_bounds (s₂ : ℚ) (parts : List (List Char)) (te : List Char)
    (h : 0 ≤ s₂ ∧ s₂ ≤ 1) :
    0 ≤ erScoreBody s₂ parts te ∧ erScoreBody s₂ parts te ≤ 1 := by
  unfold erScoreBody
  dsimp only
  obtain ⟨h0, h1⟩ := h
  split_ifs with hc1 hc2
  · obtain ⟨hf0, hf1⟩ := countP_frac_bounds parts _ hc2
    constructor
    · exact le_max_of_le_left h0
    · exact max_le h1 (by nlinarith)
  · exact ⟨h0, h1⟩
  · exact ⟨h0, h1⟩

lemma entityRelevance_bounds (t n : Option (List Char)) (it : Item) :
    0 ≤ entityRelevance t n it ∧ entityRelevance t n it ≤ 1 := by
  unfold entityRelevance
  split_ifs with h
  · norm_num
  · dsimp only
    exact ⟨roundTo_nonneg _ _ (erScoreBody_bounds _ _ _
        (erScoreName_bounds _ _ _ _ (erScoreTicker_bounds _ _ _))).1,
      roundTo_le_one _ _ (erScoreBody_bounds _ _ _
        (erScoreName_bounds _ _ _ _ (erScoreTicker_bounds _ _ _))).2⟩

/-- Embedding of `critic_factor = 1.0 if critic_status == "approved" else 0.5`. -/
def criticFactor (it : Item) : ℚ :=
  if it.critic_status = "approved".toList then 1 else 1/2

/-- The sector block of `_rank_items`: `1.1` when the known entity sector
(length > 3) appears in the lowercased insight, else `1.0`. -/
def sectorPenalty (entitySector : List Char) (it : Item) : ℚ :=
  let itemText := pyLower (it.insight.getD [])
  if entitySector ≠ [] ∧ 3 < entitySector.length ∧ entitySector <:+: itemText then 11/10
  else 1

/-- The cross-pollution block of `_rank_items`: `0.2` when the lowercased
`source_name` contains `"google news:"` or `"yahoo finance news:"` and a
non-empty entity name is absent (case-insensitively) from it, else `1.0`. -/
def pollutionPenalty (entityName sourceName : Option (List Char)) : ℚ :=
  let src := pyLower (sourceName.getD [])
  if "google news:".toList <:+: src ∨ "yahoo finance news:".toList <:+: src then
    (if entityName.getD [] ≠ [] ∧ ¬(pyLower (entityName.getD []) <:+: src) then 1/5
     else 1)
  else 1

/-- The weighted sum of `_rank_items` before the critic/sector/pollution
multipliers ("Adjusted Weights"). -/
def preMultSum (er sf conf ss tr tok rec : ℚ) : ℚ :=
  (35/100) * er + (15/100) * sf + (15/100) * conf + (10/100) * ss
    + (10/100) * tr + (10/100) * tok + (5/100) * rec

/-- The per-item `rank_score` computed inside the loop of `_rank_items`
(before the final `round(rank_score, 4)`). -/
def rankScore (now : ℚ) (ctx : QueryContext) (it : Item) : ℚ :=
  preMultSum
    (entityRelevance ctx.ticker ctx.entity it)
    (sourceQualityFactor it.source_name it.evidence_ref)
    (it.confidence.getD 0)
    (it.similarity_score.getD 0)
    (it.text_rank.getD 0)
    (tokenRelevance ctx.tokens it.insight it.recommendation)
    (recencyScore now it.created_at)
  * (criticFactor it * (sectorPenalty (pyLower (ctx.entitySector.getD [])) it
      * pollutionPenalty ctx.entity it.source_name))

lemma criticFactor_bounds (it : Item) : 0 ≤ criticFactor it ∧ criticFactor it ≤ 1 := by
  unfold criticFactor; split_ifs <;> norm_num

lemma sectorPenalty_bounds (s : List Char) (it : Item) :
    0 ≤ sectorPenalty s it ∧ sectorPenalty s it ≤ 11/10 := by
  unfold sectorPenalty; dsimp only; split_ifs <;> norm_num

lemma pollutionPenalty_bounds (e s : Option (List Char)) :
    0 ≤ pollutionPenalty e s ∧ pollutionPenalty e s ≤ 1 := by
  unfold pollutionPenalty; dsimp only; split_ifs <;> norm_num

lemma roundTo_le_const (n : ℕ) (q c : ℚ) (hc : roundTo n c = c) (h : q ≤ c) :
    roundTo n q ≤ c := by
  have := roundTo_mono n h
  rwa [hc] at this

/-- C1: the recorded rank score lies in [0, 1.5] (under the data-model
ranges of the stored item fields `confidence`, `text_rank` and
`similarity_score`), and the pre-multiplier weighted sum
`0.35·entity_relevance + 0.15·source_quality + 0.15·confidence +
0.10·semantic_score + 0.10·text_rank + 0.10·token_relevance +
0.05·recency` is monotone non-decreasing in each of the seven factors
with the other six held fixed. -/
theorem rank_score_bounded_and_premult_monotone (now : ℚ) (ctx : QueryContext)
    (it : Item)
    (hconf0 : 0 ≤ it.confidence.getD 0) (hconf1 : it.confidence.getD 0 ≤ 1)
    (htr0 : 0 ≤ it.text_rank.getD 0) (htr1 : it.text_rank.getD 0 ≤ 1)
    (hss0 : 0 ≤ it.similarity_score.getD 0) (hss1 : it.similarity_score.getD 0 ≤ 1) :
    (0 ≤ roundTo 4 (rankScore now ctx it) ∧ roundTo 4 (rankScore now ctx it) ≤ 3/2)
    ∧ (∀ a b sf conf ss tr tok rec : ℚ, a ≤ b →
        preMultSum a sf conf ss tr tok rec ≤ preMultSum b sf conf ss tr tok rec)
    ∧ (∀ er a b conf ss tr tok rec : ℚ, a ≤ b →
        preMultSum er a conf ss tr tok rec ≤ preMultSum er b conf ss tr tok rec)
    ∧ (∀ er sf a b ss tr tok rec : ℚ, a ≤ b →
        preMultSum er sf a ss tr tok rec ≤ preMultSum er sf b ss tr tok rec)
    ∧ (∀ er sf conf a b tr tok rec : ℚ, a ≤ b →
        preMultSum er sf conf a tr tok rec ≤ preMultSum er sf conf b tr tok rec)
    ∧ (∀ er sf conf ss a b tok rec : ℚ, a ≤ b →
        preMultSum er sf conf ss a tok rec ≤ preMultSum er sf conf ss b tok rec)
    ∧ (∀ er sf conf ss tr a b rec : ℚ, a ≤ b →
        preMultSum er sf conf ss tr a rec ≤ preMultSum er sf conf ss tr b rec)
    ∧ (∀ er sf conf ss tr tok a b : ℚ, a ≤ b →
        preMultSum er sf conf ss tr tok a ≤ preMultSum er sf conf ss tr tok b) := by
  refine ⟨?_, ?_, ?_, ?_, ?_, ?_, ?_, ?_⟩
  · obtain ⟨her0, her1⟩ := entityRelevance_bounds ctx.ticker ctx.entity it
    obtain ⟨hsf0, hsf1⟩ := sourceQualityFactor_bounds it.source_name it.evidence_ref
    obtain ⟨htok0, htok1⟩ := tokenRelevance_bounds ctx.tokens it.insight it.recommendation
    have hrec0 := recencyScore_nonneg now it.created_at
    have hrec1 := recencyScore_le_one now it.created_at
    obtain ⟨hcf0, hcf1⟩ := criticFactor_bounds it
    obtain ⟨hsp0, hsp1⟩ := sectorPenalty_bounds (pyLower (ctx.entitySector.getD [])) it
    obtain ⟨hpp0, hpp1⟩ := pollutionPenalty_bounds ctx.entity it.source_name
    have hS0 : 0 ≤ preMultSum (entityRelevance ctx.ticker ctx.entity it)
        (sourceQualityFactor it.source_name it.evidence_ref)
        (it.confidence.getD 0) (it.similarity_score.getD 0) (it.text_rank.getD 0)
        (tokenRelevance ctx.tokens it.insight it.recommendation)
        (recencyScore now it.created_at) := by
      unfold preMultSum; nlinarith
    have hS1 : preMultSum (entityRelevance ctx.ticker ctx.entity it)
        (sourceQualityFactor it.source_name it.evidence_ref)
        (it.confidence.getD 0) (it.similarity_score.getD 0) (it.text_rank.getD 0)
        (tokenRelevance ctx.tokens it.insight it.recommendation)
        (recencyScore now it.created_at) ≤ 1 := by
      unfold preMultSum; nlinarith
    have hM0 : 0 ≤ criticFactor it * (sectorPenalty (pyLower (ctx.entitySector.getD [])) it
        * pollutionPenalty ctx.entity it.source_name) :=
      mul_nonneg hcf0 (mul_nonneg hsp0 hpp0)
    have hMi : sectorPenalty (pyLower (ctx.entitySector.getD [])) it
        * pollutionPenalty ctx.entity it.source_name ≤ 11/10 := by nlinarith
    have hM1 : criticFactor it * (sectorPenalty (pyLower (ctx.entitySector.getD [])) it
        * pollutionPenalty ctx.entity it.source_name) ≤ 11/10 := by
      nlinarith [mul_nonneg hsp0 hpp0]
    have hR0 : 0 ≤ rankScore now ctx it := by
      unfold rankScore; exact mul_nonneg hS0 hM0
    have hR1 : rankScore now ctx it ≤ 3/2 := by
      unfold rankScore
      nlinarith [mul_le_mul hS1 hM1 hM0 (by norm_num : (0:ℚ) ≤ 1)]
    exact ⟨roundTo_nonneg _ _ hR0,
      roundTo_le_const 4 _ (3/2) (roundTo_intCast 4 15000 (3/2) (by norm_num)) hR1⟩
  all_goals
    intro a b c d e f g h hab
    unfold preMultSum
    linarith

/-- Witness for C1 at a concrete empty item and context. -/
theorem rank_score_bounded_and_premult_monotone_w :
    0 ≤ roundTo 4 (rankScore 0 {} {}) ∧ roundTo 4 (rankScore 0 {} {}) ≤ 3/2 :=
  (rank_score_bounded_and_premult_monotone 0 {} {} (by decide) (by decide)
    (by decide) (by decide) (by decide) (by decide)).1

/-- C9 (kind: implicit): `_entity_relevance` returns exactly 0.5 when both
ticker and entity name are missing (`None` or empty), which is strictly
above the 0.3 relevance-filter threshold, and the returned value always
lies in [0, 1]. -/
theorem entity_relevance_neutral_when_unresolved (t n : Option (List Char)) (it : Item) :
    ((t.getD [] = [] ∧ n.getD [] = []) →
      entityRelevance t n it = 1/2 ∧ (3/10 : ℚ) < entityRelevance t n it)
    ∧ (0 ≤ entityRelevance t n it ∧ entityRelevance t n it ≤ 1) := by
  constructor
  · intro h
    have he : entityRelevance t n it = 1/2 := by
      unfold entityRelevance
      rw [if_pos h]
    exact ⟨he, by rw [he]; norm_num⟩
  · exact entityRelevance_bounds t n it

/-- Witness for C9: an unresolved query (no ticker, no entity) on an
arbitrary item receives the neutral score 0.5 > 0.3. -/
theorem entity_relevance_neutral_when_unresolved_w :
    entityRelevance none none {} = 1/2 ∧ (3/10 : ℚ) < entityRelevance none none {} :=
  (entity_relevance_neutral_when_unresolved none none {}).1 ⟨rfl, rfl⟩

/-- C2 (counterexample): the pollution check of `_rank_items` is a substring
test (`"google news:" in src_name`), not an anchored test at the start of
the string: a `source_name` that merely contains `"Google News:"` in the
middle is penalized even though it does not start with either prefix. -/
theorem pollution_penalty_not_anchored_cex :
    pollutionPenalty (some "Microsoft".toList) (some "Re: Google News: Apple Q4".toList)
      = 1/5
    ∧ (pyLower ("Re: Google News: Apple Q4".toList)).take 12 ≠ "google news:".toList
    ∧ (pyLower ("Re: Google News: Apple Q4".toList)).take 19
        ≠ "yahoo finance news:".toList := by
  refine ⟨?_, by decide, by decide⟩
  unfold pollutionPenalty
  dsimp only
  rw [if_pos (by decide), if_pos (by decide)]

/-- C2 (amended): the 0.2 pollution multiplier is applied exactly when the
lowercased `source_name` *contains* `"google news:"` or
`"yahoo finance news:"` as a substring (not necessarily at the start) and
the entity name is non-empty and absent (case-insensitively) from the
source name; every other item gets multiplier 1.0. -/
theorem pollution_penalty_characterization (e s : Option (List Char)) :
    (pollutionPenalty e s = 1/5 ↔
      ("google news:".toList <:+: pyLower (s.getD [])
        ∨ "yahoo finance news:".toList <:+: pyLower (s.getD []))
      ∧ e.getD [] ≠ [] ∧ ¬(pyLower (e.getD []) <:+: pyLower (s.getD [])))
    ∧ (pollutionPenalty e s = 1/5 ∨ pollutionPenalty e s = 1) := by
  unfold pollutionPenalty
  dsimp only
  constructor
  · split_ifs with h1 h2
    · simp only [eq_self_iff_true, true_iff]
      exact ⟨h1, h2⟩
    · constructor
      · intro h; norm_num at h
      · rintro ⟨-, hc⟩; exact absurd hc h2
    · constructor
      · intro h; norm_num at h
      · rintro ⟨hc, -⟩; exact absurd hc h1
  · split_ifs <;> norm_num

/-! ## `core/entities.py` — `_upsert_entity`

The `entities` table is unique by ticker; the upsert for one fixed ticker
is modelled as a transformation of the optional stored row.  The
`ON CONFLICT (ticker) DO UPDATE SET` clause coalesces
`NULLIF(EXCLUDED.x, '')` with the stored value for `name`, `cik`,
`sector`, `industry` and `exchange`, leaves `entity_type` untouched, and
sets `aliases = EXCLUDED.aliases` unconditionally. -/

structure EntityRow where
  name : List Char
  ticker : List Char
  cik : List Char
  sector : List Char
  industry : List Char
  exchange : List Char
  entity_type : List Char
  aliases : List (List Char)
  deriving DecidableEq

/-- The keyword arguments of `_upsert_entity` (with their defaults). -/
structure EntityIncoming where
  name : List Char
  ticker : List Char
  cik : List Char := []
  sector : List Char := []
  industry : List Char := []
  exchange : List Char := []
  entity_type : List Char := "company".toList
  aliases : Option (List (List Char)) := none

/-- Embedding of `COALESCE(NULLIF(incoming, ''), existing)`. -/
def coalesceNullif (incoming existing : List Char) : List Char :=
  if incoming = [] then existing else incoming

/-- Embedding of `_upsert_entity` for the row keyed by the incoming ticker:
`INSERT … ON CONFLICT (ticker) DO UPDATE SET …`. -/
def upsertEntity (stored : Option EntityRow) (e : EntityIncoming) : EntityRow :=
  match stored with
  | none =>
      { name := e.name, ticker := e.ticker, cik := e.cik, sector := e.sector,
        industry := e.industry, exchange := e.exchange,
        entity_type := e.entity_type, aliases := e.aliases.getD [] }
  | some r =>
      { name := coalesceNullif e.name r.name
        ticker := r.ticker
        cik := coalesceNullif e.cik r.cik
        sector := coalesceNullif e.sector r.sector
        industry := coalesceNullif e.industry r.industry
        exchange := coalesceNullif e.exchange r.exchange
        entity_type := r.entity_type
        aliases := e.aliases.getD [] }

/-- An `_upsert_entity` call carrying only the ticker, all other fields at
their empty defaults. -/
def emptyIncoming (ticker : List Char) : EntityIncoming :=
  { name := [], ticker := ticker }

/-- C3 (counterexample): re-upserting a ticker with all other fields empty
does NOT leave the row unchanged, because the conflict clause overwrites
`aliases` with the (empty) incoming alias list instead of coalescing it. -/
theorem upsert_entity_second_empty_changes_row_cex :
    upsertEntity
        (some (upsertEntity none
          { name := "Apple Inc.".toList, ticker := "AAPL".toList,
            aliases := some ["apple".toList] }))
        (emptyIncoming "AAPL".toList)
      ≠ upsertEntity none
          { name := "Apple Inc.".toList, ticker := "AAPL".toList,
            aliases := some ["apple".toList] } := by
  intro h
  have := congrArg EntityRow.aliases h
  simp [upsertEntity, emptyIncoming, coalesceNullif] at this

/-- C3 (amended): upserting an entity and then upserting the same ticker
with every other field empty preserves every stored column except
`aliases`, which is replaced by the second call's (empty) alias list —
the coalescing `NULLIF`/`COALESCE` clause lets non-empty EXCLUDED fields
win for `name`, `cik`, `sector`, `industry` and `exchange` only. -/
theorem upsert_entity_second_empty_amended (e : EntityIncoming) :
    upsertEntity (some (upsertEntity none e)) (emptyIncoming e.ticker)
      = { upsertEntity none e with aliases := [] } := by
  simp [upsertEntity, emptyIncoming, coalesceNullif]

/-! ## `core/db/financials.py` — `upsert_financial_period`

A JSONB statement document is modelled as an association list whose
lookup prefers the leftmost binding; `target || excluded` (keys of
`excluded` override keys of `target`) is therefore `excluded ++ target`.
The `CASE WHEN EXCLUDED.x::text = '\x7b\x7d' THEN target.x ELSE
target.x || EXCLUDED.x END` clause is `mergeStatement`.  Values are a
type parameter `V` (JSON scalars). -/

/-- Deep-merge of one statement map: keep the stored map when the
incoming sub-document is empty, otherwise incoming keys override. -/
def mergeStatement {V : Type} (existing incoming : List (List Char × V)) :
    List (List Char × V) :=
  match incoming with
  | [] => existing
  | p :: rest => (p :: rest) ++ existing

/-- Stored `financial_periods` row for one fixed key
`(ticker, period_type, period_end_date, source_provider)`. -/
structure FinPeriodRow (V : Type) where
  entity_id : Option ℤ
  fiscal_year : Option ℤ
  fiscal_quarter : Option ℤ
  income_statement : List (List Char × V)
  balance_sheet : List (List Char × V)
  cash_flow : List (List Char × V)
  key_metrics : List (List Char × V)

/-- The keyword arguments of `upsert_financial_period` (maps default to
`None`, dumped as the empty JSON object). -/
structure FinPeriodIncoming (V : Type) where
  entity_id : Option ℤ := none
  fiscal_year : Option ℤ := none
  fiscal_quarter : Option ℤ := none
  income_statement : Option (List (List Char × V)) := none
  balance_sheet : Option (List (List Char × V)) := none
  cash_flow : Option (List (List Char × V)) := none
  key_metrics : Option (List (List Char × V)) := none

/-- Embedding of `upsert_financial_period` for the row keyed by the conflict target:
`INSERT … ON CONFLICT (ticker, period_type, period_end_date,
source_provider) DO UPDATE SET …`. -/
def upsertFinancialPeriod {V : Type} (stored : Option (FinPeriodRow V))
    (inc : FinPeriodIncoming V) : FinPeriodRow V :=
  match stored with
  | none =>
      { entity_id := inc.entity_id, fiscal_year := inc.fiscal_year,
        fiscal_quarter := inc.fiscal_quarter,
        income_statement := inc.income_statement.getD [],
        balance_sheet := inc.balance_sheet.getD [],
        cash_flow := inc.cash_flow.getD [],
        key_metrics := inc.key_metrics.getD [] }
  | some r =>
      { entity_id := (inc.entity_id).or r.entity_id
        fiscal_year := (inc.fiscal_year).or r.fiscal_year
        fiscal_quarter := (inc.fiscal_quarter).or r.fiscal_quarter
        income_statement := mergeStatement r.income_statement (inc.income_statement.getD [])
        balance_sheet := mergeStatement r.balance_sheet (inc.balance_sheet.getD [])
        cash_flow := mergeStatement r.cash_flow (inc.cash_flow.getD [])
        key_metrics := mergeStatement r.key_metrics (inc.key_metrics.getD []) }

lemma mergeStatement_lookup {V : Type} (ex incoming : List (List Char × V))
    (hne : incoming ≠ []) (k : List Char) :
    List.lookup k (mergeStatement ex incoming)
      = (List.lookup k incoming).or (List.lookup k ex) := by
  rcases incoming with - | ⟨p, rest⟩
  · exact absurd rfl hne
  · show List.lookup k ((p :: rest) ++ ex) = _
    rw [List.lookup_append]

/-- C4: on upsert of an existing financial period, each of the four
statement maps is left unchanged when the incoming sub-document is
empty, and otherwise keys from the incoming map override keys of the
stored map while stored keys absent from the incoming map are kept; in
particular `deep_merge(existing, empty) == existing`. -/
theorem upsert_financial_period_deep_merge {V : Type} (r : FinPeriodRow V)
    (inc : FinPeriodIncoming V) :
    (inc.income_statement.getD [] = [] →
      (upsertFinancialPeriod (some r) inc).income_statement = r.income_statement)
    ∧ (inc.balance_sheet.getD [] = [] →
      (upsertFinancialPeriod (some r) inc).balance_sheet = r.balance_sheet)
    ∧ (inc.cash_flow.getD [] = [] →
      (upsertFinancialPeriod (some r) inc).cash_flow = r.cash_flow)
    ∧ (inc.key_metrics.getD [] = [] →
      (upsertFinancialPeriod (some r) inc).key_metrics = r.key_metrics)
    ∧ (inc.income_statement.getD [] ≠ [] → ∀ k,
      List.lookup k (upsertFinancialPeriod (some r) inc).income_statement
        = ((List.lookup k (inc.income_statement.getD [])).or
            (List.lookup k r.income_statement)))
    ∧ (inc.balance_sheet.getD [] ≠ [] → ∀ k,
      List.lookup k (upsertFinancialPeriod (some r) inc).balance_sheet
        = ((List.lookup k (inc.balance_sheet.getD [])).or
            (List.lookup k r.balance_sheet)))
    ∧ (inc.cash_flow.getD [] ≠ [] → ∀ k,
      List.lookup k (upsertFinancialPeriod (some r) inc).cash_flow
        = ((List.lookup k (inc.cash_flow.getD [])).or
            (List.lookup k r.cash_flow)))
    ∧ (inc.key_metrics.getD [] ≠ [] → ∀ k,
      List.lookup k (upsertFinancialPeriod (some r) inc).key_metrics
        = ((List.lookup k (inc.key_metrics.getD [])).or
            (List.lookup k r.key_metrics)))
    ∧ (∀ m : List (List Char × V), mergeStatement m [] = m) := by
  refine ⟨?_, ?_, ?_, ?_, ?_, ?_, ?_, ?_, fun m => rfl⟩ <;>
    simp only [upsertFinancialPeriod] <;>
    intro h
  · rw [h]; rfl
  · rw [h]; rfl
  · rw [h]; rfl
  · rw [h]; rfl
  all_goals
    intro k
    exact mergeStatement_lookup _ _ h k

/-- Witness for C4: a concrete stored row with a revenue key, upserted
with an empty income statement and a balance sheet that overrides one key
and keeps the other. -/
theorem upsert_financial_period_deep_merge_w :
    (upsertFinancialPeriod
        (some { entity_id := none, fiscal_year := none, fiscal_quarter := none,
                income_statement := [("revenue".toList, (5 : ℤ))],
                balance_sheet := [("assets".toList, 1), ("debt".toList, 2)],
                cash_flow := [], key_metrics := [] })
        { balance_sheet := some [("assets".toList, 9)] }).income_statement
      = [("revenue".toList, (5 : ℤ))]
    ∧ List.lookup "assets".toList
        (upsertFinancialPeriod
          (some { entity_id := none, fiscal_year := none, fiscal_quarter := none,
                  income_statement := [("revenue".toList, (5 : ℤ))],
                  balance_sheet := [("assets".toList, 1), ("debt".toList, 2)],
                  cash_flow := [], key_metrics := [] })
          { balance_sheet := some [("assets".toList, 9)] }).balance_sheet
      = ((List.lookup "assets".toList [("assets".toList, (9 : ℤ))]).or
          (List.lookup "assets".toList [("assets".toList, (1 : ℤ)), ("debt".toList, 2)])) :=
  ⟨(upsert_financial_period_deep_merge _ _).1 (by rfl),
   (upsert_financial_period_deep_merge _ _).2.2.2.2.2.1 (by decide) _⟩

/-! ## `connectors/providers/base_provider.py` and `core/source_discovery.py`
— daily rate limits and provider dispatch

The per-provider in-memory counters `_daily_limit`, `_calls_today`,
`_last_reset_date` are a state record; `date.today().isoformat()` is the
oracle parameter `today`.  `rate_limit_ok` both answers and (on date
change) resets the counter, so it returns the pair (answer, new state).
A provider's `fetch_company_data(entity)` call is the oracle
`fetchOutcome`: a list of `ProviderResult`s, or an exception message. -/

structure ProviderState where
  dailyLimit : ℤ
  callsToday : ℕ
  lastResetDate : List Char

/-- Embedding of `BaseProvider.rate_limit_ok`. -/
def rateLimitOk (st : ProviderState) (today : List Char) : Bool × ProviderState :=
  if st.dailyLimit ≤ 0 then (true, st)
  else
    let st' := if st.lastResetDate ≠ today
      then { st with callsToday := 0, lastResetDate := today } else st
    (decide ((st'.callsToday : ℤ) < st'.dailyLimit), st')

/-- One `ProviderResult` dataclass / `providers_run` summary entry. -/
structure PResult where
  provider : List Char
  data_type : List Char
  records_stored : ℤ
  success : Bool
  error : List Char

/-- A provider as seen by the dispatch loop of `run_full_enrichment`:
its name, its counter state, and the oracle outcome of
`fetch_company_data` (`.error msg` = the call raised). -/
structure Provider where
  name : List Char
  state : ProviderState
  fetchOutcome : Except (List Char) (List PResult)

/-- The loop body of step 3 of `run_full_enrichment` for one provider:
skip when `rate_limit_ok()` is false, otherwise append one summary entry
per result and accumulate `records_stored`; an exception appends a single
failure entry.  Returns (entries appended to `providers_run`, records
added to `total_records`). -/
def dispatchProvider (today : List Char) (p : Provider) : List PResult × ℤ :=
  if ¬((rateLimitOk p.state today).1) then ([], 0)
  else
    match p.fetchOutcome with
    | .ok results =>
        (results.map (fun r =>
          { provider := r.provider, data_type := r.data_type,
            records_stored := r.records_stored, success := r.success,
            error := r.error }),
         (results.map (fun r => r.records_stored)).sum)
    | .error msg =>
        ([{ provider := p.name, data_type := "all".toList, records_stored := 0,
            success := false, error := msg }], 0)

/-- Step 3 of `run_full_enrichment`: the fold of `dispatchProvider` over
the configured providers, in order — the `providers_run` list and
`total_records` of the summary. -/
def runProvidersDispatch (today : List Char) (ps : List Provider) :
    List PResult × ℤ :=
  ((ps.map (fun p => (dispatchProvider today p).1)).flatten,
   (ps.map (fun p => (dispatchProvider today p).2)).sum)

/-- C5: when a provider with `daily_limit > 0` has its same-day counter at
(or past) the limit, `rate_limit_ok()` returns false, the dispatch of
`run_full_enrichment` neither invokes its fetch nor lets it contribute a
`providers_run` entry or any records (the summary equals the one for the
provider list without it), and the counter resets to zero whenever the
stored reset date differs from today's date. -/
theorem provider_rate_limit_enforced (today : List Char) (p : Provider)
    (before after : List Provider)
    (hlim : 0 < p.state.dailyLimit)
    (hsame : p.state.lastResetDate = today)
    (hreached : p.state.dailyLimit ≤ (p.state.callsToday : ℤ)) :
    (rateLimitOk p.state today).1 = false
    ∧ runProvidersDispatch today (before ++ p :: after)
        = runProvidersDispatch today (before ++ after)
    ∧ (∀ st : ProviderState, 0 < st.dailyLimit → st.lastResetDate ≠ today →
        (rateLimitOk st today).2.callsToday = 0
          ∧ (rateLimitOk st today).2.lastResetDate = today) := by
  have hcond : ¬(p.state.lastResetDate ≠ today) := fun h => h hsame
  have hok : (rateLimitOk p.state today).1 = false := by
    rw [rateLimitOk]
    rw [if_neg (by omega : ¬ p.state.dailyLimit ≤ 0)]
    dsimp only
    simp only [if_neg hcond]
    exact decide_eq_false (by omega)
  have hskip : dispatchProvider today p = ([], 0) := by
    rw [dispatchProvider, if_pos (by simp [hok])]
  refine ⟨hok, ?_, ?_⟩
  · unfold runProvidersDispatch
    refine Prod.ext ?_ ?_ <;> simp [hskip]
  · intro st hlim' hne
    rw [rateLimitOk]
    rw [if_neg (by omega : ¬ st.dailyLimit ≤ 0)]
    dsimp only
    rw [if_pos hne]
    exact ⟨rfl, rfl⟩

/-- Witness for C5: an Alpha-Vantage-like provider with daily limit 25 and
25 same-day calls is skipped; a stale-date state resets to zero. -/
theorem provider_rate_limit_enforced_w :
    (rateLimitOk ⟨25, 25, "2026-10-12".toList⟩ "2026-10-12".toList).1 = false
    ∧ runProvidersDispatch "2026-10-12".toList
        [⟨"alpha_vantage".toList, ⟨25, 25, "2026-10-12".toList⟩, .ok []⟩]
        = runProvidersDispatch "2026-10-12".toList []
    ∧ (∀ st : ProviderState, 0 < st.dailyLimit →
        st.lastResetDate ≠ "2026-10-12".toList →
        (rateLimitOk st "2026-10-12".toList).2.callsToday = 0
          ∧ (rateLimitOk st "2026-10-12".toList).2.lastResetDate
              = "2026-10-12".toList) := by
  have h := provider_rate_limit_enforced "2026-10-12".toList
    ⟨"alpha_vantage".toList, ⟨25, 25, "2026-10-12".toList⟩, .ok []⟩ [] []
    (by norm_num) (by rfl) (by norm_num)
  exact ⟨h.1, h.2.1, h.2.2⟩

/-! ## `core/pipeline/enrichment.py` — `_build_scenarios`

A scenario dict: `probability` may be missing (`None`), defaulting to
0.33 in the renormalization; `assumption` / `impact` /
`trigger_signals` get `setdefault`s.  The LLM call
`generate_scenarios(...)` is the oracle `llm` (`none` = declined /
unparsable); `decision.get("confidence", 0.5) or 0.5` is `conf`;
`top_source` is the precomputed `evidence[0].source_name` fallback
string (only interpolated into scenario text). -/

structure Scenario where
  name : List Char := []
  probability : Option ℚ := none
  assumption : Option (List Char) := none
  impact : Option (List Char) := none
  trigger_signals : Option (List (List Char)) := none
  deriving DecidableEq

/-- Embedding of `float(decision.get("confidence", 0.5) or 0.5)`. -/
def baseConfidenceOf (conf : Option ℚ) : ℚ :=
  match conf with
  | none => 1/2
  | some c => if c = 0 then 1/2 else c

/-- Values `bull_raw`, `base_raw`, `bear_raw` and their total in the arithmetic
fallback of `_build_scenarios`. -/
def bullRaw (c : ℚ) : ℚ := min (c + 12/100) (92/100)

def baseRaw (c : ℚ) : ℚ := max (min c (8/10)) (1/10)

def bearRaw (c : ℚ) : ℚ := max (1 - c + 5/100) (1/10)

def rawTotal (c : ℚ) : ℚ := bullRaw c + baseRaw c + bearRaw c

/-- The arithmetic fallback scenarios of `_build_scenarios`. -/
def fallbackScenarios (conf : Option ℚ) (topSource : List Char) : List Scenario :=
  let c := baseConfidenceOf conf
  let bullProb := roundTo 3 (bullRaw c / rawTotal c)
  let baseProb := roundTo 3 (baseRaw c / rawTotal c)
  let bearProb := roundTo 3 (max (1 - bullProb - baseProb) 0)
  [{ name := "bull".toList, probability := some bullProb,
     assumption := some "Positive execution and demand signals hold across latest sources.".toList,
     impact := some ("Upside scenario if momentum from ".toList ++ topSource
       ++ " continues.".toList),
     trigger_signals := some ["accelerating revenue growth".toList,
       "margin expansion".toList, "positive narrative shift".toList] },
   { name := "base".toList, probability := some baseProb,
     assumption := some "Current trajectory persists without major external shocks.".toList,
     impact := some "Moderate performance with manageable risk and incremental changes.".toList,
     trigger_signals := some ["stable guidance".toList,
       "mixed but non-deteriorating sentiment".toList, "controlled risk levels".toList] },
   { name := "bear".toList, probability := some bearProb,
     assumption := some "Competitive pressure or macro events weaken current momentum.".toList,
     impact := some "Downside risk rises; defensive posture and tighter monitoring required.".toList,
     trigger_signals := some ["negative earnings revisions".toList,
       "rising risk indicators".toList, "narrative deterioration".toList] }]

/-- Embedding of `_build_scenarios(decision, evidence, …)`; `llm` is the
`generate_scenarios` oracle. -/
def buildScenarios (llm : Option (List Scenario)) (conf : Option ℚ)
    (topSource : List Char) : List Scenario :=
  match llm with
  | some ls =>
      if ls ≠ [] ∧ ls.length = 3 then
        let totalProb := (ls.map (fun s => s.probability.getD (33/100))).sum
        if 0 < totalProb then
          ls.map (fun s =>
            { s with
              probability := some (roundTo 3 (s.probability.getD (33/100) / totalProb)),
              assumption := some (s.assumption.getD []),
              impact := some (s.impact.getD []),
              trigger_signals := some (s.trigger_signals.getD []) })
        else ls
      else fallbackScenarios conf topSource
  | none => fallbackScenarios conf topSource

/-- Sum of the `probability` fields of a returned scenario list. -/
def probSum (ls : List Scenario) : ℚ :=
  (ls.map (fun s => s.probability.getD 0)).sum

lemma rawTotal_bounds (c : ℚ) : 127/100 ≤ rawTotal c ∧ rawTotal c ≤ 197/100 := by
  unfold rawTotal bullRaw baseRaw bearRaw
  rcases le_total c (1/10) with h1 | h1 <;>
  rcases le_total c (8/10) with h2 | h2 <;>
  simp only [min_def, max_def] <;>
  split_ifs <;> constructor <;> linarith

lemma roundTo3_le_add (q : ℚ) : roundTo 3 q ≤ q + 1/2000 := by
  have h := roundTo_abs_sub_le 3 q
  rw [abs_le] at h
  have : (1 : ℚ) / (2 * 10 ^ 3) = 1/2000 := by norm_num
  rw [this] at h
  linarith [h.2]

lemma fallbackScenarios_probSum (conf : Option ℚ) (ts : List Char) :
    (fallbackScenarios conf ts).length = 3 ∧ probSum (fallbackScenarios conf ts) = 1 := by
  refine ⟨rfl, ?_⟩
  unfold probSum fallbackScenarios
  dsimp only
  simp only [List.map_cons, List.map_nil, List.sum_cons, List.sum_nil,
    Option.getD_some]
  set c := baseConfidenceOf conf with hc
  obtain ⟨hT1, hT2⟩ := rawTotal_bounds c
  have hT0 : 0 < rawTotal c := by linarith
  set B := roundTo 3 (bullRaw c / rawTotal c) with hB
  set A := roundTo 3 (baseRaw c / rawTotal c) with hA
  have hBle : B ≤ bullRaw c / rawTotal c + 1/2000 := roundTo3_le_add _
  have hAle : A ≤ baseRaw c / rawTotal c + 1/2000 := roundTo3_le_add _
  have hsum3 : bullRaw c / rawTotal c + baseRaw c / rawTotal c
      + bearRaw c / rawTotal c = 1 := by
    rw [div_add_div_same, div_add_div_same]
    rw [show bullRaw c + baseRaw c + bearRaw c = rawTotal c from rfl]
    exact div_self (ne_of_gt hT0)
  have hbear_lb : 1/1000 < bearRaw c / rawTotal c := by
    rw [lt_div_iff hT0]
    have hbr : 1/10 ≤ bearRaw c := le_max_right _ _
    nlinarith
  have hpos : 0 < 1 - B - A := by linarith
  have hmax : max (1 - B - A) 0 = 1 - B - A := max_eq_left (le_of_lt hpos)
  have hfix : roundTo 3 (1 - B - A) = 1 - B - A := by
    apply roundTo_intCast 3
      (1000 - round ((bullRaw c / rawTotal c) * 10^3)
        - round ((baseRaw c / rawTotal c) * 10^3))
    rw [hB, hA, roundTo, roundTo]
    rw [eq_div_iff (by norm_num : ((10:ℚ)^3) ≠ 0)]
    push_cast
    ring
  rw [hmax, hfix]
  ring

lemma renorm_sum_close (p1 p2 p3 : ℚ) (hT : 0 < p1 + p2 + p3) :
    |roundTo 3 (p1 / (p1+p2+p3)) + roundTo 3 (p2 / (p1+p2+p3))
      + roundTo 3 (p3 / (p1+p2+p3)) - 1| ≤ 1/1000 := by
  set T := p1 + p2 + p3 with hTdef
  have hT0 : T ≠ 0 := ne_of_gt hT
  set z1 := round ((p1 / T) * (10:ℚ)^3) with hz1
  set z2 := round ((p2 / T) * (10:ℚ)^3) with hz2
  set z3 := round ((p3 / T) * (10:ℚ)^3) with hz3
  have e1 : |(z1:ℚ) - (p1/T) * (10:ℚ)^3| ≤ 1/2 := by
    rw [abs_sub_comm]; exact abs_sub_round _
  have e2 : |(z2:ℚ) - (p2/T) * (10:ℚ)^3| ≤ 1/2 := by
    rw [abs_sub_comm]; exact abs_sub_round _
  have e3 : |(z3:ℚ) - (p3/T) * (10:ℚ)^3| ≤ 1/2 := by
    rw [abs_sub_comm]; exact abs_sub_round _
  have hsum : p1/T + p2/T + p3/T = 1 := by
    rw [div_add_div_same, div_add_div_same]
    exact div_self hT0
  have h1000 : (p1/T) * (10:ℚ)^3 + (p2/T) * (10:ℚ)^3 + (p3/T) * (10:ℚ)^3 = 1000 := by
    calc (p1/T) * (10:ℚ)^3 + (p2/T) * (10:ℚ)^3 + (p3/T) * (10:ℚ)^3
        = (p1/T + p2/T + p3/T) * (10:ℚ)^3 := by ring
      _ = 1000 := by rw [hsum]; norm_num
  have hcast : roundTo 3 (p1/T) + roundTo 3 (p2/T) + roundTo 3 (p3/T) - 1
      = ((z1 + z2 + z3 - 1000 : ℤ) : ℚ) / 1000 := by
    rw [roundTo, roundTo, roundTo, ← hz1, ← hz2, ← hz3]
    push_cast
    rw [eq_div_iff (by norm_num : (1000:ℚ) ≠ 0)]
    ring_nf
  have hw : |((z1 + z2 + z3 - 1000 : ℤ) : ℚ)| ≤ 3/2 := by
    obtain ⟨l1, r1⟩ := abs_le.mp e1
    obtain ⟨l2, r2⟩ := abs_le.mp e2
    obtain ⟨l3, r3⟩ := abs_le.mp e3
    rw [abs_le]
    push_cast
    constructor <;> linarith
  have hwz : |(z1 + z2 + z3 - 1000 : ℤ)| ≤ 1 := by
    have h2 : ((|z1 + z2 + z3 - 1000| : ℤ) : ℚ) < 2 := by
      rw [Int.cast_abs]; linarith
    have h3 : (|z1 + z2 + z3 - 1000| : ℤ) < 2 := by exact_mod_cast h2
    omega
  rw [hcast, abs_div, abs_of_pos (by norm_num : (0:ℚ) < 1000)]
  rw [div_le_div_iff (by norm_num) (by norm_num)]
  have : |((z1 + z2 + z3 - 1000 : ℤ) : ℚ)| ≤ 1 := by
    rw [← Int.cast_abs]
    exact_mod_cast hwz
  linarith

/-- C6 (amended): `_build_scenarios` returns exactly three scenarios whose
probabilities sum to 1.0 within ±1e-3 both when the LLM yields three
scenarios with a positive probability total (renormalized; sum within
±1e-3) and when the LLM declines or yields a non-3-element list
(arithmetic fallback; sum exactly 1).  The amendment excludes the case of
three LLM scenarios whose probability total is ≤ 0, which the code
returns without renormalization. -/
theorem build_scenarios_three_and_prob_sum (llm : Option (List Scenario))
    (conf : Option ℚ) (ts : List Char) :
    (∀ ls, llm = some ls → ls.length = 3 →
      0 < (ls.map (fun s => s.probability.getD (33/100))).sum →
      (buildScenarios llm conf ts).length = 3
        ∧ |probSum (buildScenarios llm conf ts) - 1| ≤ 1/1000)
    ∧ ((llm.getD []).length ≠ 3 →
      (buildScenarios llm conf ts).length = 3
        ∧ probSum (buildScenarios llm conf ts) = 1) := by
  constructor
  · rintro ls rfl h3 hpos
    obtain ⟨a, b, d, rfl⟩ := List.length_eq_three.mp h3
    unfold buildScenarios
    dsimp only
    rw [if_pos ⟨List.cons_ne_nil _ _, rfl⟩]
    simp only [List.map_cons, List.map_nil, List.sum_cons, List.sum_nil]
    have hpos' : (0:ℚ) < a.probability.getD (33/100)
        + (b.probability.getD (33/100) + (d.probability.getD (33/100) + 0)) := by
      simpa using hpos
    rw [if_pos hpos']
    refine ⟨rfl, ?_⟩
    unfold probSum
    simp only [List.map_cons, List.map_nil, List.sum_cons, List.sum_nil,
      Option.getD_some]
    have hre := renorm_sum_close (a.probability.getD (33/100))
      (b.probability.getD (33/100)) (d.probability.getD (33/100)) (by linarith)
    have hT : a.probability.getD (33/100)
        + (b.probability.getD (33/100) + (d.probability.getD (33/100) + 0))
        = a.probability.getD (33/100) + b.probability.getD (33/100)
          + d.probability.getD (33/100) := by ring
    rw [hT]
    calc |roundTo 3 (a.probability.getD (33/100) / (a.probability.getD (33/100)
            + b.probability.getD (33/100) + d.probability.getD (33/100)))
          + (roundTo 3 (b.probability.getD (33/100) / (a.probability.getD (33/100)
            + b.probability.getD (33/100) + d.probability.getD (33/100)))
          + (roundTo 3 (d.probability.getD (33/100) / (a.probability.getD (33/100)
            + b.probability.getD (33/100) + d.probability.getD (33/100))) + 0)) - 1|
        = |roundTo 3 (a.probability.getD (33/100) / (a.probability.getD (33/100)
            + b.probability.getD (33/100) + d.probability.getD (33/100)))
          + roundTo 3 (b.probability.getD (33/100) / (a.probability.getD (33/100)
            + b.probability.getD (33/100) + d.probability.getD (33/100)))
          + roundTo 3 (d.probability.getD (33/100) / (a.probability.getD (33/100)
            + b.probability.getD (33/100) + d.probability.getD (33/100))) - 1| := by
          ring_nf
      _ ≤ 1/1000 := hre
  · intro hne
    rcases llm with - | ls
    · exact fallbackScenarios_probSum conf ts
    · unfold buildScenarios
      dsimp only
      rw [if_neg (fun h => hne h.2)]
      exact fallbackScenarios_probSum conf ts

/-- Witness for C6 (amended), fallback branch at a concrete input. -/
theorem build_scenarios_three_and_prob_sum_w :
    (buildScenarios none none []).length = 3
      ∧ probSum (buildScenarios none none []) = 1 :=
  (build_scenarios_three_and_prob_sum none none []).2 (by simp)

/-- C6 (counterexample): three LLM scenarios whose probabilities are all 0
are returned unrenormalized, so `_build_scenarios` returns scenarios
whose probabilities sum to 0, not to 1.0 ± 1e-3. -/
theorem build_scenarios_zero_total_cex :
    (buildScenarios (some [{ probability := some 0 }, { probability := some 0 },
        { probability := some 0 }]) (some (1/2)) []).length = 3
    ∧ probSum (buildScenarios (some [{ probability := some 0 },
        { probability := some 0 }, { probability := some 0 }]) (some (1/2)) []) = 0
    ∧ ¬(|probSum (buildScenarios (some [{ probability := some 0 },
        { probability := some 0 }, { probability := some 0 }]) (some (1/2)) []) - 1|
          ≤ 1/1000) := by
  have h0 : probSum (buildScenarios (some [{ probability := some 0 },
      { probability := some 0 }, { probability := some 0 }]) (some (1/2)) []) = 0 := by
    unfold buildScenarios
    dsimp only
    rw [if_pos ⟨List.cons_ne_nil _ _, rfl⟩]
    simp only [List.map_cons, List.map_nil, List.sum_cons, List.sum_nil,
      Option.getD_some]
    rw [if_neg (by norm_num)]
    unfold probSum
    norm_num
  have hl : (buildScenarios (some [{ probability := some 0 },
      { probability := some 0 }, { probability := some 0 }]) (some (1/2)) []).length
      = 3 := by
    unfold buildScenarios
    dsimp only
    rw [if_pos ⟨List.cons_ne_nil _ _, rfl⟩]
    simp only [List.map_cons, List.map_nil, List.sum_cons, List.sum_nil,
      Option.getD_some]
    rw [if_neg (by norm_num)]
    rfl
  exact ⟨hl, h0, by rw [h0]; norm_num⟩

/-! ## `core/pipeline/intelligence.py` — `_summarize_decision` and the
batch decision of `run_market_intelligence_query` (step 7)

The LLM calls (`generate_executive_summary`, `generate_recommendation`,
`generate_parallel_intelligence`) are oracles; the pure f-string
renderings of the financial snapshot (the data-rich summary fallback and
the template recommendations) are oracle strings too, since they only
format numbers.  `llmResults = none` models `asyncio.run(...)` raising. -/

structure Decision where
  answer_summary : List Char
  confidence : ℚ
  risk_level : List Char
  recommendation : List Char
  deriving DecidableEq

def noStrongEvidenceText : List Char :=
  "No strong evidence found for this query in current ingested intelligence.".toList

def ingestRecText : List Char :=
  "Ingest additional relevant sources or broaden query terms before making a decision.".toList

/-- Oracle inputs of `_summarize_decision` and of the batch decision. -/
structure DecisionEnv where
  llmExecSummary : Option (List Char) := none
  llmRecommendation : Option (List Char) := none
  dataRichFallback : List Char := []
  templateRec : List Char := []
  batchTemplateRec : List Char := []

/-- Threat ranking of `_summarize_decision`: dict lookup of the threat
level with default 1 (low 1, medium 2, high 3, anything else 1). -/
def threatRank (it : Item) : ℕ :=
  let tl := it.threat_level.getD "low".toList
  if tl = "medium".toList then 2 else if tl = "high".toList then 3 else 1

/-- Embedding of `_summarize_decision(query_text, ranked_items, …)`. -/
def summarizeDecision (env : DecisionEnv) (ranked : List Item) : Decision :=
  if ranked = [] then
    { answer_summary := noStrongEvidenceText, confidence := 1/4,
      risk_level := "low".toList, recommendation := ingestRecText }
  else
    let avg := ((ranked.take 5).map (fun it => it.confidence.getD 0)).sum
      / ((min ranked.length 5 : ℕ) : ℚ)
    let maxThreat := ((ranked.take 5).map threatRank).foldr max 1
    let risk := if 3 ≤ maxThreat then "high".toList
      else if maxThreat = 2 then "medium".toList else "low".toList
    { answer_summary := if env.llmExecSummary.getD [] ≠ [] then env.llmExecSummary.getD []
        else env.dataRichFallback,
      confidence := roundTo 3 avg,
      risk_level := risk,
      recommendation := if env.llmRecommendation.getD [] ≠ [] then
          env.llmRecommendation.getD []
        else env.templateRec }

/-- The `llm_results` dict produced by `generate_parallel_intelligence`
(the fields step 7 reads). -/
structure BatchLLM where
  executive_summary : Option (List Char) := none
  recommendation : Option (List Char) := none

/-- Step 7 of `run_market_intelligence_query`: build the decision from the
parallel LLM results when an executive summary is present, else fall back
to the serial `_summarize_decision` path. -/
def batchDecision (llmResults : Option BatchLLM) (env : DecisionEnv)
    (top : List Item) : Decision :=
  match llmResults with
  | some lr =>
      if lr.executive_summary.getD [] ≠ [] then
        let avg := ((top.take 5).map (fun it => it.confidence.getD 0)).sum
          / ((max (min top.length 5) 1 : ℕ) : ℚ)
        let maxThreat := ((top.take 5).map threatRank).foldr max 1
        { answer_summary := lr.executive_summary.getD [],
          confidence := roundTo 3 avg,
          risk_level := if 3 ≤ maxThreat then "high".toList
            else if maxThreat = 2 then "medium".toList else "low".toList,
          recommendation := if lr.recommendation.getD [] ≠ [] then
              lr.recommendation.getD []
            else env.batchTemplateRec }
      else summarizeDecision env top
  | none => summarizeDecision env top

lemma roundTo_zero (n : ℕ) : roundTo n 0 = 0 := roundTo_intCast n 0 0 (by simp)

/-- C8 (counterexample): a batch query with zero evidence items whose
parallel LLM dispatch produced an executive summary returns that summary
with confidence 0.0 — not the 0.25 / "No strong evidence" fallback the
claim asserts for every zero-evidence batch query. -/
theorem batch_no_evidence_llm_summary_cex :
    (batchDecision (some { executive_summary := some "Strong buy signal.".toList })
        {} []).confidence = 0
    ∧ (batchDecision (some { executive_summary := some "Strong buy signal.".toList })
        {} []).confidence ≠ 1/4
    ∧ (batchDecision (some { executive_summary := some "Strong buy signal.".toList })
        {} []).answer_summary = "Strong buy signal.".toList
    ∧ ¬("No strong evidence".toList <:+:
        (batchDecision (some { executive_summary := some "Strong buy signal.".toList })
          {} []).answer_summary) := by
  have hc : (batchDecision (some { executive_summary := some "Strong buy signal.".toList })
      {} []).confidence = 0 := by
    unfold batchDecision
    dsimp only
    rw [if_pos (by decide)]
    dsimp only
    simp only [List.take_nil, List.map_nil, List.sum_nil]
    rw [show ((0:ℚ) / ((max (min ([] : List Item).length 5) 1 : ℕ) : ℚ)) = 0 by norm_num]
    exact roundTo_zero 3
  have ha : (batchDecision (some { executive_summary := some "Strong buy signal.".toList })
      {} []).answer_summary = "Strong buy signal.".toList := by
    unfold batchDecision
    dsimp only
    rw [if_pos (by decide)]
    rfl
  refine ⟨hc, by rw [hc]; norm_num, ha, ?_⟩
  rw [ha]
  decide

/-- C8 (amended): a batch query whose ranking yields zero evidence items
AND whose parallel LLM dispatch produced no executive summary returns the
fallback decision card: confidence 0.25, risk_level "low", and an
executive summary containing the "No strong evidence" text. -/
theorem batch_no_evidence_decision (env : DecisionEnv) (llmResults : Option BatchLLM)
    (h : (llmResults.map (fun lr => lr.executive_summary.getD [])).getD [] = []) :
    batchDecision llmResults env []
      = { answer_summary := noStrongEvidenceText, confidence := 1/4,
          risk_level := "low".toList, recommendation := ingestRecText }
    ∧ "No strong evidence".toList <:+: noStrongEvidenceText := by
  constructor
  · rcases llmResults with - | lr
    · show summarizeDecision env [] = _
      rw [summarizeDecision, if_pos rfl]
    · have h' : lr.executive_summary.getD [] = [] := h
      show (if lr.executive_summary.getD [] ≠ [] then _ else summarizeDecision env []) = _
      rw [if_neg (by simp [h']), summarizeDecision, if_pos rfl]
  · exact ⟨[], " found for this query in current ingested intelligence.".toList, rfl⟩

/-- Witness for C8 (amended): LLM dispatch failed entirely, no evidence. -/
theorem batch_no_evidence_decision_w :
    batchDecision none {} []
      = { answer_summary := noStrongEvidenceText, confidence := 1/4,
          risk_level := "low".toList, recommendation := ingestRecText }
    ∧ "No strong evidence".toList <:+: noStrongEvidenceText :=
  batch_no_evidence_decision {} none rfl

/-! ## `core/pipeline/stream.py` — `run_market_intelligence_query_stream`

The generator is modelled as the list of `(stage, progress)` events it
yields, parameterized by the outcomes of its external calls
(`StreamEnv`).  Event payloads (`data`, `message`) do not affect stage
order or progress and are omitted.  `_event` rounds the progress to two
decimals.  Stage names are an enumeration of the string constants of the
source. -/

inductive Stage where
  | queryParsed | enrichmentStarted | providerComplete | warningStage
  | enrichmentComplete | retrievalStarted | retrievalComplete | rankingComplete
  | financialSnapshotStarted | financialSnapshot
  | analystConsensusStarted | analystConsensus
  | historicalStarted | trendAnalysisStarted | historicalTrends
  | macroStarted | macroCtx
  | sentimentStarted | socialSentiment
  | marketNewsStarted | marketNews
  | coverageStage
  | filingsStarted | filingsStage
  | insiderActivityStarted | insiderActivity
  | analyzing | decisionToken | decisionReady
  | narrativeStarted | narrativeToken | narrativeReady
  | scenariosStarted | scenariosReady
  | competitiveStarted | competitiveToken | competitiveLandscape
  | priceHistoryStarted | priceHistory
  | completeStage
  deriving DecidableEq

structure Event where
  stage : Stage
  progress : ℚ

/-- Event constructor `_event(stage, progress, …)`: the payload carries
the progress as `round(progress, 2)`. -/
def mkEvent (s : Stage) (p : ℚ) : Event := ⟨s, roundTo 2 p⟩

/-- Outcomes of the external calls made by the stream generator. -/
structure StreamEnv where
  ticker : Option (List Char) := none
  refresh : Bool := false
  providerEvents : ℕ := 0
  enrichWarning : Bool := false
  analystOk : Bool := true
  historicalAvailable : Bool := false
  marketNewsOk : Bool := true
  insiderOk : Bool := true
  decisionTokens : ℕ := 0
  narrativeTokens : ℕ := 0
  competitiveTokens : ℕ := 0

/-- The event trace of `run_market_intelligence_query_stream`, in yield
order: `refresh` gates the enrichment block, `enrichWarning` is the
`except`-branch warning, the `ticker`-gated optional blocks emit their
`…_started` event unconditionally and their data event only when the
guarded fetch succeeded, and the starred stages repeat once per
provider / LLM token. -/
def streamEvents (env : StreamEnv) : List Event :=
  [mkEvent .queryParsed (5/100), mkEvent .enrichmentStarted (8/100)]
  ++ (if env.refresh then
        List.replicate env.providerEvents (mkEvent .providerComplete (12/100))
      else [])
  ++ (if env.enrichWarning then [mkEvent .warningStage (18/100)] else [])
  ++ [mkEvent .enrichmentComplete (20/100),
      mkEvent .retrievalStarted (22/100),
      mkEvent .retrievalComplete (30/100),
      mkEvent .rankingComplete (35/100),
      mkEvent .financialSnapshotStarted (38/100),
      mkEvent .financialSnapshot (42/100)]
  ++ (if env.ticker.isSome then
        mkEvent .analystConsensusStarted (43/100)
          :: (if env.analystOk then [mkEvent .analystConsensus (435/1000)] else [])
      else [])
  ++ [mkEvent .historicalStarted (44/100)]
  ++ (if env.historicalAvailable ∧ env.ticker.isSome then
        [mkEvent .trendAnalysisStarted (46/100)]
      else [])
  ++ [mkEvent .historicalTrends (50/100),
      mkEvent .macroStarted (52/100),
      mkEvent .macroCtx (56/100),
      mkEvent .sentimentStarted (58/100),
      mkEvent .socialSentiment (62/100)]
  ++ (if env.ticker.isSome then
        mkEvent .marketNewsStarted (63/100)
          :: (if env.marketNewsOk then [mkEvent .marketNews (64/100)] else [])
      else [])
  ++ [mkEvent .coverageStage (65/100),
      mkEvent .filingsStarted (67/100),
      mkEvent .filingsStage (70/100)]
  ++ (if env.ticker.isSome then
        mkEvent .insiderActivityStarted (71/100)
          :: (if env.insiderOk then [mkEvent .insiderActivity (715/1000)] else [])
      else [])
  ++ [mkEvent .analyzing (72/100)]
  ++ List.replicate env.decisionTokens (mkEvent .decisionToken (74/100))
  ++ [mkEvent .decisionReady (78/100),
      mkEvent .narrativeStarted (80/100)]
  ++ List.replicate env.narrativeTokens (mkEvent .narrativeToken (82/100))
  ++ [mkEvent .narrativeReady (85/100),
      mkEvent .scenariosStarted (87/100),
      mkEvent .scenariosReady (90/100),
      mkEvent .competitiveStarted (91/100)]
  ++ List.replicate env.competitiveTokens (mkEvent .competitiveToken (92/100))
  ++ [mkEvent .competitiveLandscape (93/100)]
  ++ (if env.ticker.isSome then [mkEvent .priceHistoryStarted (94/100)] else [])
  ++ [mkEvent .priceHistory (95/100),
      mkEvent .completeStage 1]

/-- The mandatory stages of §4.8.2 (the starred and unstarred entries of
the claim's list); the remaining stages are optional extras. -/
def isMandatory : Stage → Bool
  | .warningStage | .financialSnapshotStarted
  | .analystConsensusStarted | .analystConsensus
  | .historicalStarted | .trendAnalysisStarted
  | .macroStarted | .sentimentStarted
  | .marketNewsStarted | .marketNews
  | .filingsStarted
  | .insiderActivityStarted | .insiderActivity
  | .scenariosStarted | .priceHistoryStarted => false
  | _ => true

/-- The §4.8.2 mandatory order, with the starred stages repeated
`nProv` / `nDec` / `nNarr` / `nComp` times. -/
def mandatoryPattern (nProv nDec nNarr nComp : ℕ) : List Stage :=
  [.queryParsed, .enrichmentStarted]
  ++ List.replicate nProv .providerComplete
  ++ [.enrichmentComplete, .retrievalStarted, .retrievalComplete, .rankingComplete,
      .financialSnapshot, .historicalTrends, .macroCtx, .socialSentiment,
      .coverageStage, .filingsStage, .analyzing]
  ++ List.replicate nDec .decisionToken
  ++ [.decisionReady, .narrativeStarted]
  ++ List.replicate nNarr .narrativeToken
  ++ [.narrativeReady, .scenariosReady, .competitiveStarted]
  ++ List.replicate nComp .competitiveToken
  ++ [.competitiveLandscape, .priceHistory, .completeStage]

lemma stream_mandatory_order (env : StreamEnv) :
    ((streamEvents env).filter (fun e => isMandatory e.stage)).map Event.stage
      = mandatoryPattern (if env.refresh then env.providerEvents else 0)
          env.decisionTokens env.narrativeTokens env.competitiveTokens := by
  cases hr : env.refresh <;>
  · simp only [streamEvents, mandatoryPattern, hr, if_true, if_false,
      Bool.false_eq_true, List.filter_append, List.map_append,
      apply_ite (List.filter (fun e : Event => isMandatory e.stage)),
      apply_ite (List.map Event.stage),
      List.filter_replicate, List.filter_cons, List.filter_nil,
      List.map_replicate, List.map_cons, List.map_nil,
      mkEvent, isMandatory, ite_self]
    split_ifs <;> simp

/-- Relation of consecutive events: non-decreasing progress. -/
def evLE (a b : Event) : Prop := a.progress ≤ b.progress

/-- The event list is pairwise non-decreasing and bounded below by `lo`. -/
def Bnd (lo : ℚ) (l : List Event) : Prop :=
  l.Pairwise evLE ∧ ∀ x ∈ l, lo ≤ x.progress

lemma bnd_nil (c : ℚ) : Bnd c [] := ⟨List.Pairwise.nil, by simp⟩

lemma bnd_weaken {lo c : ℚ} {l : List Event} (hlc : lo ≤ c) (h : Bnd c l) :
    Bnd lo l :=
  ⟨h.1, fun x hx => le_trans hlc (h.2 x hx)⟩

lemma bnd_cons (lo c : ℚ) (x : Event) {l : List Event}
    (hx : x.progress = lo) (hlc : lo ≤ c) (h : Bnd c l) : Bnd lo (x :: l) := by
  constructor
  · rw [List.pairwise_cons]
    exact ⟨fun b hb => by unfold evLE; rw [hx]; exact le_trans hlc (h.2 b hb), h.1⟩
  · intro y hy
    rcases List.mem_cons.mp hy with rfl | hy
    · exact le_of_eq hx.symm
    · exact le_trans hlc (h.2 y hy)

lemma bnd_ite_append (lo c : ℚ) (b : Prop) [Decidable b] {l₁ l₂ : List Event}
    (h₁ : Bnd c l₂ → Bnd lo (l₁ ++ l₂))
    (hlc : lo ≤ c) (h₂ : Bnd c l₂) :
    Bnd lo ((if b then l₁ else []) ++ l₂) := by
  split
  · exact h₁ h₂
  · rw [List.nil_append]
    exact bnd_weaken hlc h₂

lemma bnd_replicate_append (lo c : ℚ) (n : ℕ) (x : Event) {l₂ : List Event}
    (hx : x.progress = lo) (hlc : lo ≤ c) (h : Bnd c l₂) :
    Bnd lo (List.replicate n x ++ l₂) := by
  induction n with
  | zero => rw [List.replicate_zero, List.nil_append]; exact bnd_weaken hlc h
  | succ n ih =>
      rw [List.replicate_succ, List.cons_append]
      exact bnd_cons lo lo x hx le_rfl ih

lemma r2mono {a b : ℚ} (h : a ≤ b) : roundTo 2 a ≤ roundTo 2 b := roundTo_mono 2 h

lemma streamEvents_bnd (env : StreamEnv) :
    Bnd (roundTo 2 (5/100)) (streamEvents env) := by
  unfold streamEvents
  simp only [List.cons_append, List.nil_append, List.append_assoc,
    List.singleton_append]
  refine bnd_cons _ (roundTo 2 (8/100)) _ rfl (r2mono (by norm_num)) ?_
  refine bnd_cons _ (roundTo 2 (12/100)) _ rfl (r2mono (by norm_num)) ?_
  refine bnd_ite_append _ (roundTo 2 (18/100)) _
    (fun h2 => bnd_replicate_append _ _ _ _ rfl (r2mono (by norm_num)) h2)
    (r2mono (by norm_num)) ?_
  refine bnd_ite_append _ (roundTo 2 (20/100)) _
    (fun h2 => by
      rw [List.singleton_append]
      exact bnd_cons _ _ _ rfl (r2mono (by norm_num)) h2)
    (r2mono (by norm_num)) ?_
  refine bnd_cons _ (roundTo 2 (22/100)) _ rfl (r2mono (by norm_num)) ?_
  refine bnd_cons _ (roundTo 2 (30/100)) _ rfl (r2mono (by norm_num)) ?_
  refine bnd_cons _ (roundTo 2 (35/100)) _ rfl (r2mono (by norm_num)) ?_
  refine bnd_cons _ (roundTo 2 (38/100)) _ rfl (r2mono (by norm_num)) ?_
  refine bnd_cons _ (roundTo 2 (42/100)) _ rfl (r2mono (by norm_num)) ?_
  refine bnd_cons _ (roundTo 2 (43/100)) _ rfl (r2mono (by norm_num)) ?_
  refine bnd_ite_append _ (roundTo 2 (44/100)) _
    (fun h2 => by
      rw [List.cons_append]
      refine bnd_cons _ (roundTo 2 (435/1000)) _ rfl (r2mono (by norm_num)) ?_
      refine bnd_ite_append _ (roundTo 2 (44/100)) _
        (fun h3 => by
          rw [List.singleton_append]
          exact bnd_cons _ _ _ rfl (r2mono (by norm_num)) h3)
        (r2mono (by norm_num)) h2)
    (r2mono (by norm_num)) ?_
  refine bnd_cons _ (roundTo 2 (46/100)) _ rfl (r2mono (by norm_num)) ?_
  refine bnd_ite_append _ (roundTo 2 (50/100)) _
    (fun h2 => by
      rw [List.singleton_append]
      exact bnd_cons _ _ _ rfl (r2mono (by norm_num)) h2)
    (r2mono (by norm_num)) ?_
  refine bnd_cons _ (roundTo 2 (52/100)) _ rfl (r2mono (by norm_num)) ?_
  refine bnd_cons _ (roundTo 2 (56/100)) _ rfl (r2mono (by norm_num)) ?_
  refine bnd_cons _ (roundTo 2 (58/100)) _ rfl (r2mono (by norm_num)) ?_
  refine bnd_cons _ (roundTo 2 (62/100)) _ rfl (r2mono (by norm_num)) ?_
  refine bnd_cons _ (roundTo 2 (63/100)) _ rfl (r2mono (by norm_num)) ?_
  refine bnd_ite_append _ (roundTo 2 (65/100)) _
    (fun h2 => by
      rw [List.cons_append]
      refine bnd_cons _ (roundTo 2 (64/100)) _ rfl (r2mono (by norm_num)) ?_
      refine bnd_ite_append _ (roundTo 2 (65/100)) _
        (fun h3 => by
          rw [List.singleton_append]
          exact bnd_cons _ _ _ rfl (r2mono (by norm_num)) h3)
        (r2mono (by norm_num)) h2)
    (r2mono (by norm_num)) ?_
  refine bnd_cons _ (roundTo 2 (67/100)) _ rfl (r2mono (by norm_num)) ?_
  refine bnd_cons _ (roundTo 2 (70/100)) _ rfl (r2mono (by norm_num)) ?_
  refine bnd_cons _ (roundTo 2 (71/100)) _ rfl (r2mono (by norm_num)) ?_
  refine bnd_ite_append _ (roundTo 2 (72/100)) _
    (fun h2 => by
      rw [List.cons_append]
      refine bnd_cons _ (roundTo 2 (715/1000)) _ rfl (r2mono (by norm_num)) ?_
      refine bnd_ite_append _ (roundTo 2 (72/100)) _
        (fun h3 => by
          rw [List.singleton_append]
          exact bnd_cons _ _ _ rfl (r2mono (by norm_num)) h3)
        (r2mono (by norm_num)) h2)
    (r2mono (by norm_num)) ?_
  refine bnd_cons _ (roundTo 2 (74/100)) _ rfl (r2mono (by norm_num)) ?_
  refine bnd_replicate_append _ (roundTo 2 (78/100)) _ _ rfl (r2mono (by norm_num)) ?_
  refine bnd_cons _ (roundTo 2 (80/100)) _ rfl (r2mono (by norm_num)) ?_
  refine bnd_cons _ (roundTo 2 (82/100)) _ rfl (r2mono (by norm_num)) ?_
  refine bnd_replicate_append _ (roundTo 2 (85/100)) _ _ rfl (r2mono (by norm_num)) ?_
  refine bnd_cons _ (roundTo 2 (87/100)) _ rfl (r2mono (by norm_num)) ?_
  refine bnd_cons _ (roundTo 2 (90/100)) _ rfl (r2mono (by norm_num)) ?_
  refine bnd_cons _ (roundTo 2 (91/100)) _ rfl (r2mono (by norm_num)) ?_
  refine bnd_cons _ (roundTo 2 (92/100)) _ rfl (r2mono (by norm_num)) ?_
  refine bnd_replicate_append _ (roundTo 2 (93/100)) _ _ rfl (r2mono (by norm_num)) ?_
  refine bnd_cons _ (roundTo 2 (94/100)) _ rfl (r2mono (by norm_num)) ?_
  refine bnd_ite_append _ (roundTo 2 (95/100)) _
    (fun h2 => by
      rw [List.singleton_append]
      exact bnd_cons _ _ _ rfl (r2mono (by norm_num)) h2)
    (r2mono (by norm_num)) ?_
  refine bnd_cons _ (roundTo 2 1) _ rfl (r2mono (by norm_num)) ?_
  exact bnd_cons _ (roundTo 2 1) _ rfl le_rfl (bnd_nil _)

set_option maxHeartbeats 2000000 in
/-- C7: every run of the streaming pipeline emits the mandatory §4.8.2
stage events in exactly the specified order (the starred stages repeating
once per provider / LLM token, the remaining emitted stages being
optional extras outside the mandatory list), and the emitted `progress`
values never decrease from one event to the next. -/
theorem stream_stage_order_and_progress_monotone (env : StreamEnv) :
    (((streamEvents env).filter (fun e => isMandatory e.stage)).map Event.stage
      = mandatoryPattern (if env.refresh then env.providerEvents else 0)
          env.decisionTokens env.narrativeTokens env.competitiveTokens)
    ∧ List.Chain' evLE (streamEvents env) :=
  ⟨stream_mandatory_order env, List.Pairwise.chain' (streamEvents_bnd env).1⟩

end MarketMind
